import Mathlib

/-!
Verification of the BBS proxy backend (`src/main.py`).

The program is a FastAPI application that proxies four operations
(list posts, create post, login, register) to a fixed external BBS API
using the `requests` library.  The embedding below models:

* JSON values (`Json`), the behaviour of `res.json()` (`parseJson`) and of
  FastAPI's re-serialization of a returned dict (`renderJson`).  Numeric
  literals are modelled as integers only (no claim involves fractional
  numbers, which would be floating point).
* the outcome of one outbound `requests` call (`UpstreamResult`): either an
  `HttpResponse` (the final response object delivered by `requests`, with
  status code and decoded body text) or a transport-level failure
  (`netError`, carrying the exception message: timeout, connection refused,
  DNS failure, ...).
* `res.raise_for_status()`, which raises `requests.exceptions.HTTPError`
  exactly when `400 ≤ status < 600`; transport failures raise
  `requests.exceptions.ConnectionError`/`Timeout`, which are NOT
  `HTTPError`, so in the handlers they fall through to `except Exception`.
* the four route handlers, each returning the wire response sent to the
  browser and, where relevant, a record of the outbound call performed.

Inbound JSON fields are modelled as `Option String` (`none` = field absent;
non-string JSON field values are outside the model, no claim mentions them).
-/

/-- A JSON value.  Numbers are modelled as integers (see module comment). -/
inductive Json where
  | null
  | bool (b : Bool)
  | num (n : Int)
  | str (s : String)
  | arr (elems : List Json)
  | obj (fields : List (String × Json))

/-! ### Rendering (FastAPI JSONResponse: `json.dumps` with compact separators,
`ensure_ascii=False`) -/

/-- Lower-case hex digit for a value `< 16`, as used in `\u00XX` escapes. -/
def hexDigit (n : Nat) : Char :=
  if n < 10 then Char.ofNat (48 + n) else Char.ofNat (87 + n)

/-- How `json.dumps` escapes one character inside a string literal. -/
def escapeChar (c : Char) : List Char :=
  if c = '"' then ['\\', '"']
  else if c = '\\' then ['\\', '\\']
  else if c = '\n' then ['\\', 'n']
  else if c = '\r' then ['\\', 'r']
  else if c = '\t' then ['\\', 't']
  else if c = '\x08' then ['\\', 'b']
  else if c = '\x0c' then ['\\', 'f']
  else if c.toNat < 32 then
    ['\\', 'u', '0', '0', hexDigit (c.toNat / 16), hexDigit (c.toNat % 16)]
  else [c]

/-- Render a JSON string literal, quotes included. -/
def renderStr (s : String) : String :=
  String.mk ('"' :: s.data.foldr (fun c acc => escapeChar c ++ acc) ['"'])

mutual

/-- Serialize a JSON value the way FastAPI does when a handler returns a
dict: compact separators, insertion order preserved. -/
def renderJson : Json → String
  | .null => "null"
  | .bool true => "true"
  | .bool false => "false"
  | .num n => toString n
  | .str s => renderStr s
  | .arr es => "[" ++ renderArr es ++ "]"
  | .obj fs => "\x7b" ++ renderObj fs ++ "\x7d"

def renderArr : List Json → String
  | [] => ""
  | [e] => renderJson e
  | e :: es => renderJson e ++ "," ++ renderArr es

def renderObj : List (String × Json) → String
  | [] => ""
  | [(k, v)] => renderStr k ++ ":" ++ renderJson v
  | (k, v) :: fs => renderStr k ++ ":" ++ renderJson v ++ "," ++ renderObj fs

end

/-! ### Parsing (`res.json()`, i.e. `json.loads` restricted to integer
numerals) -/

/-- JSON inter-token whitespace. -/
def jsonWs (c : Char) : Bool :=
  c = ' ' || c = '\t' || c = '\n' || c = '\r'

/-- Drop leading JSON whitespace. -/
def skipWs : List Char → List Char
  | [] => []
  | c :: cs => if jsonWs c then skipWs cs else c :: cs

/-- Value of one hex digit, if any. -/
def hexVal (c : Char) : Option Nat :=
  if 48 ≤ c.toNat && c.toNat ≤ 57 then some (c.toNat - 48)
  else if 97 ≤ c.toNat && c.toNat ≤ 102 then some (c.toNat - 87)
  else if 65 ≤ c.toNat && c.toNat ≤ 70 then some (c.toNat - 55)
  else none

/-- Inverse of a simple (single-character) string escape. -/
def unescape (c : Char) : Option Char :=
  if c = '"' then some '"'
  else if c = '\\' then some '\\'
  else if c = '/' then some '/'
  else if c = 'b' then some '\x08'
  else if c = 'f' then some '\x0c'
  else if c = 'n' then some '\n'
  else if c = 'r' then some '\r'
  else if c = 't' then some '\t'
  else none

/-- Scan a JSON string literal after its opening quote; returns the decoded
characters and the input after the closing quote.  Unescaped control
characters are rejected, as in Python's strict `json.loads`. -/
def lexStrChars : List Char → Option (List Char × List Char)
  | [] => none
  | c :: cs =>
    if c = '"' then some ([], cs)
    else if c = '\\' then
      match cs with
      | [] => none
      | e :: cs2 =>
        if e = 'u' then
          match cs2 with
          | h1 :: h2 :: h3 :: h4 :: cs3 =>
            match hexVal h1, hexVal h2, hexVal h3, hexVal h4 with
            | some a, some b, some x, some d =>
              match lexStrChars cs3 with
              | some (l, r) => some (Char.ofNat (((a * 16 + b) * 16 + x) * 16 + d) :: l, r)
              | none => none
            | _, _, _, _ => none
          | _ => none
        else
          match unescape e with
          | some u =>
            match lexStrChars cs2 with
            | some (l, r) => some (u :: l, r)
            | none => none
          | none => none
    else if c.toNat < 32 then none
    else
      match lexStrChars cs with
      | some (l, r) => some (c :: l, r)
      | none => none

/-- Split a run of decimal digits off the front of the input. -/
def spanDigits : List Char → List Char × List Char
  | [] => ([], [])
  | c :: cs =>
    if c.isDigit then
      let p := spanDigits cs
      (c :: p.1, p.2)
    else ([], c :: cs)

/-- Numeric value of a digit run. -/
def digitsToNat (ds : List Char) : Nat :=
  ds.foldl (fun acc c => acc * 10 + (c.toNat - 48)) 0

/-- JSON forbids superfluous leading zeros in numerals. -/
def leadingZero : List Char → Bool
  | '0' :: _ :: _ => true
  | _ => false

/-- Lex an integer numeral (optional minus sign, then digits). -/
def lexNumber (cs : List Char) : Option (Json × List Char) :=
  match cs with
  | '-' :: cs1 =>
    match spanDigits cs1 with
    | ([], _) => none
    | (ds, r) =>
      if leadingZero ds then none
      else some (.num (-(Int.ofNat (digitsToNat ds))), r)
  | _ =>
    match spanDigits cs with
    | ([], _) => none
    | (ds, r) =>
      if leadingZero ds then none
      else some (.num (Int.ofNat (digitsToNat ds)), r)

mutual

/-- Fuel-bounded recursive-descent parse of one JSON value. -/
def parseValue : Nat → List Char → Option (Json × List Char)
  | 0, _ => none
  | fuel + 1, cs =>
    match skipWs cs with
    | [] => none
    | c :: cs1 =>
      if c = '\x7b' then parseObjBody fuel cs1
      else if c = '[' then parseArrBody fuel cs1
      else if c = '"' then
        match lexStrChars cs1 with
        | some (l, r) => some (.str (String.mk l), r)
        | none => none
      else
        match c :: cs1 with
        | 't' :: 'r' :: 'u' :: 'e' :: rest => some (.bool true, rest)
        | 'f' :: 'a' :: 'l' :: 's' :: 'e' :: rest => some (.bool false, rest)
        | 'n' :: 'u' :: 'l' :: 'l' :: rest => some (.null, rest)
        | cs2 => lexNumber cs2

/-- After an opening brace: an empty object or the first member. -/
def parseObjBody : Nat → List Char → Option (Json × List Char)
  | 0, _ => none
  | fuel + 1, cs =>
    match skipWs cs with
    | [] => none
    | c :: cs1 =>
      if c = '\x7d' then some (.obj [], cs1)
      else
        match parseMember fuel (c :: cs1) with
        | some (kv, r) => parseObjTail fuel r [kv]
        | none => none

/-- One `"key": value` member (input must start at the key's quote). -/
def parseMember : Nat → List Char → Option ((String × Json) × List Char)
  | 0, _ => none
  | fuel + 1, cs =>
    match cs with
    | [] => none
    | c :: cs1 =>
      if c = '"' then
        match lexStrChars cs1 with
        | some (k, r) =>
          match skipWs r with
          | ':' :: r2 =>
            match parseValue fuel (skipWs r2) with
            | some (v, r3) => some ((String.mk k, v), r3)
            | none => none
          | _ => none
        | none => none
      else none

/-- After a member: a comma and another member, or the closing brace. -/
def parseObjTail : Nat → List Char → List (String × Json) → Option (Json × List Char)
  | 0, _, _ => none
  | fuel + 1, cs, acc =>
    match skipWs cs with
    | [] => none
    | c :: rest =>
      if c = '\x7d' then some (.obj acc.reverse, rest)
      else if c = ',' then
        match parseMember fuel (skipWs rest) with
        | some (kv, r) => parseObjTail fuel r (kv :: acc)
        | none => none
      else none

/-- After an opening bracket: an empty array or the first element. -/
def parseArrBody : Nat → List Char → Option (Json × List Char)
  | 0, _ => none
  | fuel + 1, cs =>
    match skipWs cs with
    | [] => none
    | c :: cs1 =>
      if c = ']' then some (.arr [], cs1)
      else
        match parseValue fuel (c :: cs1) with
        | some (v, r) => parseArrTail fuel r [v]
        | none => none

/-- After an element: a comma and another element, or the closing bracket. -/
def parseArrTail : Nat → List Char → List Json → Option (Json × List Char)
  | 0, _, _ => none
  | fuel + 1, cs, acc =>
    match skipWs cs with
    | [] => none
    | c :: rest =>
      if c = ']' then some (.arr acc.reverse, rest)
      else if c = ',' then
        match parseValue fuel (skipWs rest) with
        | some (v, r) => parseArrTail fuel r (v :: acc)
        | none => none
      else none

end

/-- `json.loads`: parse a complete document, requiring only whitespace after
the value.  The fuel `length + 1` dominates the nesting depth, since every
recursive step consumes at least one character. -/
def parseJson (s : String) : Option Json :=
  match parseValue (s.data.length + 1) s.data with
  | some (j, rest) => if skipWs rest = [] then some j else none
  | none => none

/-! ### Configuration and outbound requests (`src/main.py` lines 18-114) -/

/-- `BBS_EXTERNAL_API_BASE_URL`: the fixed upstream base URL. -/
def BBS_EXTERNAL_API_BASE_URL : String := "https://bbs-server.vercel.app"

/-- `MAX_API_WAIT_TIME = (3.0, 8.0)`: the (connect, read) timeout pair.
The Python floats 3.0 and 8.0 are exactly the rationals 3 and 8. -/
def MAX_API_WAIT_TIME : ℚ × ℚ := (3, 8)

/-- `get_user_agent()`: the static User-Agent header dict. -/
def get_user_agent : List (String × String) :=
  [("User-Agent",
    "Mozilla/5.0 (Windows NT 10.0; Win64; x64) " ++
    "AppleWebKit/537.36 (KHTML, like Gecko) " ++
    "Chrome/120.0 Safari/537.36")]

/-- The static data of one outbound `requests` call: target URL, headers
dict, and timeout pair as passed to `requests.get`/`requests.post`. -/
structure RequestSpec where
  url : String
  headers : List (String × String)
  timeout : ℚ × ℚ
deriving Repr, DecidableEq

/-- The request issued by `fetch_bbs_posts` (`requests.get` on `/posts`). -/
def fetch_bbs_posts_request : RequestSpec :=
  ⟨BBS_EXTERNAL_API_BASE_URL ++ "/posts", get_user_agent, MAX_API_WAIT_TIME⟩

/-- The request issued by `post_new_message` (`requests.post` on `/post`). -/
def post_new_message_request : RequestSpec :=
  ⟨BBS_EXTERNAL_API_BASE_URL ++ "/post", get_user_agent, MAX_API_WAIT_TIME⟩

/-- The request issued by `login_user` (`requests.post` on `/login`). -/
def login_user_request : RequestSpec :=
  ⟨BBS_EXTERNAL_API_BASE_URL ++ "/login", get_user_agent, MAX_API_WAIT_TIME⟩

/-- The request issued by `register_user` (`requests.post` on `/register`). -/
def register_user_request : RequestSpec :=
  ⟨BBS_EXTERNAL_API_BASE_URL ++ "/register", get_user_agent, MAX_API_WAIT_TIME⟩

/-! ### Upstream call outcomes -/

/-- The final HTTP response delivered by `requests` (after any redirect
handling): status code and decoded body text. -/
structure HttpResponse where
  status : Nat
  body : String
deriving Repr, DecidableEq

/-- Outcome of one outbound call at the transport level: a response, or a
network-level failure (`requests.exceptions.ConnectionError` / `Timeout` /
DNS failure) carrying the exception's message. -/
inductive UpstreamResult where
  | resp (r : HttpResponse)
  | netError (msg : String)
deriving Repr, DecidableEq

/-- A Python exception escaping one of the `sync()` bodies, as the handlers
distinguish them: `requests.exceptions.HTTPError` (raised by
`raise_for_status`, carries the response) versus everything else
(network errors, JSON decode errors, ...), of which only `str(e)` is used. -/
inductive PyError where
  | httpError (r : HttpResponse)
  | other (msg : String)

/-- Message of the `json.JSONDecodeError` raised by `res.json()` on a body
that is not valid JSON (the exact text is irrelevant to every claim). -/
def jsonDecodeErrorMsg : String := "Expecting value: line 1 column 1 (char 0)"

/-- The shared body of the four `sync()` closures:
`res.raise_for_status()` raises `HTTPError` iff `400 ≤ status < 600`;
otherwise `return res.json()` parses the body or raises a decode error.
A transport failure raises a non-`HTTPError` exception. -/
def syncCall (u : UpstreamResult) : Except PyError Json :=
  match u with
  | .netError msg => .error (.other msg)
  | .resp r =>
    if 400 ≤ r.status ∧ r.status < 600 then .error (.httpError r)
    else
      match parseJson r.body with
      | some j => .ok j
      | none => .error (.other jsonDecodeErrorMsg)

/-- `fetch_bbs_posts`, as a function of the upstream outcome. -/
def fetch_bbs_posts (u : UpstreamResult) : Except PyError Json := syncCall u

/-- `post_new_message(username, password, body)`: the JSON payload it
forwards.  Only `api_post_message` calls it, always with truthy values. -/
structure PostPayload where
  username : String
  password : String
  body : String
deriving Repr, DecidableEq

/-- `post_new_message`, as a function of the upstream outcome. -/
def post_new_message (u : UpstreamResult) : Except PyError Json := syncCall u

/-- `login_user` / `register_user` forward `{username, password}` exactly as
extracted from the inbound JSON (`none` = the field was absent, forwarded
as JSON `null`). -/
structure AuthPayload where
  username : Option String
  password : Option String
deriving Repr, DecidableEq

/-- `login_user`, as a function of the upstream outcome. -/
def login_user (u : UpstreamResult) : Except PyError Json := syncCall u

/-- `register_user`, as a function of the upstream outcome. -/
def register_user (u : UpstreamResult) : Except PyError Json := syncCall u

/-! ### Route handlers (`src/main.py` lines 121-219) -/

/-- The wire response a handler sends to the browser. -/
structure BrowserResponse where
  status : Nat
  body : String
deriving Repr, DecidableEq

/-- The generic failure body the handlers build by string formatting:
`f-string` interpolation of `str(e)` between literal braces — NOT a JSON
serializer, the message is not escaped. -/
def detailBody (msg : String) : String :=
  "\x7b\"detail\":\"" ++ msg ++ "\"\x7d"

/-- The shared `try/except` tail of all four handlers: a returned dict
becomes a 200 response re-serialized by FastAPI; an `HTTPError` is passed
through with the upstream's exact `text` and `status_code`; any other
exception becomes a 500 with the formatted detail body. -/
def respond : Except PyError Json → BrowserResponse
  | .ok j => ⟨200, renderJson j⟩
  | .error (.httpError r) => ⟨r.status, r.body⟩
  | .error (.other msg) => ⟨500, detailBody msg⟩

/-- `GET /api/bbs/posts` handler. -/
def api_get_posts (u : UpstreamResult) : BrowserResponse :=
  respond (fetch_bbs_posts u)

/-- Python `str.strip()` whitespace (ASCII part; Python also strips some
Unicode spaces, which no claim involves). -/
def pyIsSpace (c : Char) : Bool :=
  c = ' ' || c = '\t' || c = '\n' || c = '\r' || c = '\x0b' || c = '\x0c'

/-- Python `str.strip()`. -/
def pyStrip (s : String) : String :=
  String.mk (((s.data.dropWhile pyIsSpace).reverse.dropWhile pyIsSpace).reverse)

/-- Python truthiness of `data.get(...)`: `None` and the empty string are
falsy, every other string is truthy. -/
def truthy : Option String → Bool
  | none => false
  | some s => s ≠ ""

/-- The inbound JSON object of `POST /api/bbs/post`, after `req.json()`
succeeded: the three fields `data.get` reads (`none` = absent). -/
structure InboundPost where
  username : Option String
  password : Option String
  body : Option String
deriving Repr, DecidableEq

/-- `POST /api/bbs/post` handler: validates, then forwards.  Returns the
browser response and the payload forwarded upstream (`none` when the 400
path returns before `post_new_message` is called). -/
def api_post_message (inb : InboundPost) (u : UpstreamResult) :
    BrowserResponse × Option PostPayload :=
  let username := inb.username
  let password := inb.password
  let body := pyStrip (inb.body.getD "")
  if !truthy username || !truthy password || body = "" then
    (⟨400, "\x7b\"detail\":\"username, password, body required\"\x7d"⟩, none)
  else
    (respond (post_new_message u), some ⟨username.getD "", password.getD "", body⟩)

/-- The inbound JSON object of the auth routes, after `req.json()`
succeeded: the two fields `data.get` reads (`none` = absent). -/
structure InboundAuth where
  username : Option String
  password : Option String
deriving Repr, DecidableEq

/-- `POST /api/auth/login` handler: no validation, always forwards the
extracted fields.  Returns the browser response and the forwarded payload. -/
def api_login (inb : InboundAuth) (u : UpstreamResult) :
    BrowserResponse × AuthPayload :=
  (respond (login_user u), ⟨inb.username, inb.password⟩)

/-- `POST /api/auth/register` handler: no validation, always forwards the
extracted fields.  Returns the browser response and the forwarded payload. -/
def api_register (inb : InboundAuth) (u : UpstreamResult) :
    BrowserResponse × AuthPayload :=
  (respond (register_user u), ⟨inb.username, inb.password⟩)

/-! ### Derived notions used by the claims -/

/-- First binding of a key in a parsed JSON object. -/
def lookupField : List (String × Json) → String → Option Json
  | [], _ => none
  | (k, v) :: fs, key => if k = key then some v else lookupField fs key

/-- The `detail` field of a wire body, when the body is well-formed JSON,
is an object, and the field is a string — `none` otherwise. -/
def detailOf (s : String) : Option String :=
  match parseJson s with
  | some (Json.obj fields) =>
    match lookupField fields "detail" with
    | some (Json.str d) => some d
    | _ => none
  | _ => none

/-- A character that needs no escaping inside a JSON string literal. -/
def jsonSafeChar (c : Char) : Bool :=
  c ≠ '"' && c ≠ '\\' && 32 ≤ c.toNat

/-- A message every character of which is safe to splice verbatim into a
JSON string literal. -/
def jsonSafeMsg (s : String) : Bool :=
  s.data.all jsonSafeChar

/-! ### Helper lemmas: unfolding equations for the embedded code -/

/-- One-step unfolding of `api_post_message` (the `let`s inlined). -/
theorem api_post_message_eq (inb : InboundPost) (u : UpstreamResult) :
    api_post_message inb u =
      if !truthy inb.username || !truthy inb.password ||
          pyStrip (inb.body.getD "") = "" then
        (⟨400, "\x7b\"detail\":\"username, password, body required\"\x7d"⟩, none)
      else
        (respond (post_new_message u),
          some ⟨inb.username.getD "", inb.password.getD "",
            pyStrip (inb.body.getD "")⟩) := rfl

/-- A transport failure surfaces as a generic (non-`HTTPError`) exception. -/
theorem syncCall_netError (msg : String) :
    syncCall (.netError msg) = .error (.other msg) := rfl

/-- `raise_for_status` raises `HTTPError` exactly on 4xx/5xx statuses. -/
theorem syncCall_httpError (r : HttpResponse) (h4 : 400 ≤ r.status)
    (h6 : r.status < 600) : syncCall (.resp r) = .error (.httpError r) := by
  simp only [syncCall]
  rw [if_pos ⟨h4, h6⟩]

/-- Outside 4xx/5xx, `res.json()` is parsed and returned. -/
theorem syncCall_ok (r : HttpResponse) (j : Json)
    (hns : ¬(400 ≤ r.status ∧ r.status < 600))
    (hp : parseJson r.body = some j) : syncCall (.resp r) = .ok j := by
  simp only [syncCall]
  rw [if_neg hns, hp]

/-- A whitespace-only string strips to the empty string. -/
theorem pyStrip_eq_empty_of_all_space (s : String)
    (h : s.data.all pyIsSpace = true) : pyStrip s = "" := by
  unfold pyStrip
  have h1 : s.data.dropWhile pyIsSpace = [] := by
    rw [List.dropWhile_eq_nil_iff]
    intro x hx
    exact (List.all_eq_true.mp h) x hx
  rw [h1]
  rfl

/-! ### Helper lemmas: parsing the formatted detail body -/

/-- A run of safe characters inside a string literal is scanned verbatim up
to the closing quote. -/
theorem lexStrChars_safe (l : List Char) (rest : List Char)
    (h : l.all jsonSafeChar = true) :
    lexStrChars (l ++ '"' :: rest) = some (l, rest) := by
  induction l with
  | nil => rw [List.nil_append, lexStrChars.eq_def]; rfl
  | cons c t ih =>
    simp only [List.all_cons, Bool.and_eq_true] at h
    obtain ⟨hc, ht⟩ := h
    simp only [jsonSafeChar, Bool.and_eq_true, decide_eq_true_eq] at hc
    rw [List.cons_append, lexStrChars.eq_def]
    simp only [if_neg hc.1.1, if_neg hc.1.2, if_neg (by omega : ¬ c.toNat < 32), ih ht]

theorem skipWs_quote (cs : List Char) : skipWs ('"' :: cs) = '"' :: cs := rfl

theorem skipWs_lbrace (cs : List Char) : skipWs ('\x7b' :: cs) = '\x7b' :: cs := rfl

theorem skipWs_rbrace (cs : List Char) : skipWs ('\x7d' :: cs) = '\x7d' :: cs := rfl

theorem skipWs_colon (cs : List Char) : skipWs (':' :: cs) = ':' :: cs := rfl

/-- Parsing a value that starts with a quote scans one string literal. -/
theorem parseValue_strLit (f : Nat) (cs l r : List Char)
    (h : lexStrChars cs = some (l, r)) :
    parseValue (f + 1) ('"' :: cs) = some (.str (String.mk l), r) := by
  rw [parseValue.eq_def]
  simp only [skipWs_quote, h]
  rfl

/-- Parsing the member `"detail":"<msg>"` for a safe message. -/
theorem parseMember_detail (f : Nat) (msg : String) (h : jsonSafeMsg msg = true) :
    parseMember (f + 2)
      ('"' :: 'd' :: 'e' :: 't' :: 'a' :: 'i' :: 'l' :: '"' :: ':' :: '"' ::
        (msg.data ++ ['"', '\x7d'])) =
      some (("detail", .str msg), ['\x7d']) := by
  have hkey : lexStrChars
      ('d' :: 'e' :: 't' :: 'a' :: 'i' :: 'l' :: '"' :: ':' :: '"' ::
        (msg.data ++ ['"', '\x7d'])) =
      some (['d', 'e', 't', 'a', 'i', 'l'],
        ':' :: '"' :: (msg.data ++ ['"', '\x7d'])) := by
    have := lexStrChars_safe ['d', 'e', 't', 'a', 'i', 'l']
      (':' :: '"' :: (msg.data ++ ['"', '\x7d'])) (by decide)
    simpa using this
  have hmsg : lexStrChars (msg.data ++ ['"', '\x7d']) = some (msg.data, ['\x7d']) := by
    have := lexStrChars_safe msg.data ['\x7d'] (by simpa [jsonSafeMsg] using h)
    simpa using this
  have hval := parseValue_strLit f (msg.data ++ ['"', '\x7d']) msg.data ['\x7d'] hmsg
  rw [parseMember.eq_def]
  simp only [hkey, skipWs_colon, skipWs_quote, hval]
  rfl

/-- Parsing the object body `"detail":"<msg>"\x7d` for a safe message. -/
theorem parseObjBody_detail (f : Nat) (msg : String) (h : jsonSafeMsg msg = true) :
    parseObjBody (f + 3)
      ('"' :: 'd' :: 'e' :: 't' :: 'a' :: 'i' :: 'l' :: '"' :: ':' :: '"' ::
        (msg.data ++ ['"', '\x7d'])) =
      some (.obj [("detail", .str msg)], []) := by
  have hm := parseMember_detail f msg h
  rw [parseObjBody.eq_def]
  simp only [skipWs_quote, hm]
  rw [parseObjTail.eq_def]
  simp only [skipWs_rbrace]
  rfl

/-- Parsing the whole formatted detail document for a safe message. -/
theorem parseValue_detail (f : Nat) (msg : String) (h : jsonSafeMsg msg = true) :
    parseValue (f + 4)
      ('\x7b' :: '"' :: 'd' :: 'e' :: 't' :: 'a' :: 'i' :: 'l' :: '"' :: ':' :: '"' ::
        (msg.data ++ ['"', '\x7d'])) =
      some (.obj [("detail", .str msg)], []) := by
  have hb := parseObjBody_detail f msg h
  rw [parseValue.eq_def]
  simp only [skipWs_lbrace, hb]
  rfl

/-- The character list underlying a formatted detail body. -/
theorem detailBody_data (msg : String) :
    (detailBody msg).data =
      '\x7b' :: '"' :: 'd' :: 'e' :: 't' :: 'a' :: 'i' :: 'l' :: '"' :: ':' :: '"' ::
        (msg.data ++ ['"', '\x7d']) := by
  cases msg with
  | mk l => rfl

/-- For a safe message the formatted detail body parses to a one-field
object. -/
theorem parseJson_detailBody (msg : String) (h : jsonSafeMsg msg = true) :
    parseJson (detailBody msg) = some (.obj [("detail", .str msg)]) := by
  unfold parseJson
  rw [detailBody_data]
  have hlen :
      ('\x7b' :: '"' :: 'd' :: 'e' :: 't' :: 'a' :: 'i' :: 'l' :: '"' :: ':' :: '"' ::
        (msg.data ++ ['"', '\x7d'])).length + 1 = msg.data.length + 10 + 4 := by
    simp [List.length_append]
  rw [hlen, parseValue_detail (msg.data.length + 10) msg h]
  rfl

/-- For a safe message the formatted detail body is a well-formed JSON
object whose `detail` field is exactly the message. -/
theorem detailOf_detailBody (msg : String) (h : jsonSafeMsg msg = true) :
    detailOf (detailBody msg) = some msg := by
  unfold detailOf
  rw [parseJson_detailBody msg h]
  rfl

/-! ### Claims -/

/-- C1, counterexample: a network-level failure is answered with status 500,
not 503 as claimed — transport exceptions are not `HTTPError`, so they land
in the generic `except Exception` branch, whose hard-coded status is 500. -/
theorem netError_status_is_500_not_503 :
    api_get_posts (.netError "connection refused") =
      ⟨500, detailBody "connection refused"⟩ ∧
    (api_get_posts (.netError "connection refused")).status ≠ 503 :=
  ⟨rfl, by decide⟩

/-- C1, amended: for every network-level upstream failure during any of the
four proxied operations (for post creation: whenever the outbound call was
made at all), the handler replies with status 500 and the body
`\x7b"detail":"<error text>"\x7d`, the underlying error text spliced in
verbatim. -/
theorem netError_returns_500_with_detail (msg : String) (inbP : InboundPost)
    (inbA : InboundAuth) :
    api_get_posts (.netError msg) = ⟨500, detailBody msg⟩ ∧
    ((api_post_message inbP (.netError msg)).2.isSome = true →
      (api_post_message inbP (.netError msg)).1 = ⟨500, detailBody msg⟩) ∧
    (api_login inbA (.netError msg)).1 = ⟨500, detailBody msg⟩ ∧
    (api_register inbA (.netError msg)).1 = ⟨500, detailBody msg⟩ := by
  refine ⟨rfl, ?_, rfl, rfl⟩
  intro hs
  rw [api_post_message_eq] at hs ⊢
  cases hC : (!truthy inbP.username || !truthy inbP.password ||
      decide (pyStrip (inbP.body.getD "") = "")) with
  | true => rw [if_pos (by simp [hC])] at hs; simp at hs
  | false => rw [if_neg (by simp [hC])]; rfl

/-- C1, witness: the amended statement at the message "timed out" and a
valid post payload. -/
theorem netError_returns_500_with_detail_witness :
    (api_post_message ⟨some "u", some "p", some "hi"⟩
        (.netError "timed out")).2.isSome = true ∧
    api_get_posts (.netError "timed out") = ⟨500, detailBody "timed out"⟩ ∧
    (api_post_message ⟨some "u", some "p", some "hi"⟩
        (.netError "timed out")).1 = ⟨500, detailBody "timed out"⟩ :=
  ⟨rfl, (netError_returns_500_with_detail "timed out" ⟨some "u", some "p", some "hi"⟩
      ⟨none, none⟩).1,
    (netError_returns_500_with_detail "timed out" ⟨some "u", some "p", some "hi"⟩
      ⟨none, none⟩).2.1 rfl⟩

/-- C2, counterexample: an upstream 304 (non-2xx) is NOT passed through:
`raise_for_status` does not raise outside 400-599, `res.json()` fails on the
empty body, and the generic branch answers 500 with a decode-error detail. -/
theorem status_304_not_passed_through :
    api_get_posts (.resp ⟨304, ""⟩) = ⟨500, detailBody jsonDecodeErrorMsg⟩ ∧
    (api_get_posts (.resp ⟨304, ""⟩)).status ≠ 304 ∧
    (api_get_posts (.resp ⟨304, ""⟩)).body ≠ "" :=
  ⟨rfl, by decide, by decide⟩

/-- C2, amended: for every upstream response with a 4xx or 5xx status
(`400 ≤ status < 600`, exactly the statuses on which `raise_for_status`
raises), each of the four API handlers replies with exactly the upstream
status code and exactly the upstream body (for post creation: whenever the
outbound call was made at all). -/
theorem httpError_passthrough_status_and_body (r : HttpResponse)
    (inbP : InboundPost) (inbA : InboundAuth)
    (h4 : 400 ≤ r.status) (h6 : r.status < 600) :
    api_get_posts (.resp r) = ⟨r.status, r.body⟩ ∧
    ((api_post_message inbP (.resp r)).2.isSome = true →
      (api_post_message inbP (.resp r)).1 = ⟨r.status, r.body⟩) ∧
    (api_login inbA (.resp r)).1 = ⟨r.status, r.body⟩ ∧
    (api_register inbA (.resp r)).1 = ⟨r.status, r.body⟩ := by
  have he := syncCall_httpError r h4 h6
  refine ⟨?_, ?_, ?_, ?_⟩
  · show respond (syncCall (.resp r)) = _
    rw [he]; rfl
  · intro hs
    rw [api_post_message_eq] at hs ⊢
    cases hC : (!truthy inbP.username || !truthy inbP.password ||
        decide (pyStrip (inbP.body.getD "") = "")) with
    | true => rw [if_pos (by simp [hC])] at hs; simp at hs
    | false =>
      rw [if_neg (by simp [hC])]
      show respond (syncCall (.resp r)) = _
      rw [he]; rfl
  · show respond (syncCall (.resp r)) = _
    rw [he]; rfl
  · show respond (syncCall (.resp r)) = _
    rw [he]; rfl

/-- C2, witness: the amended statement at an upstream 404. -/
theorem httpError_passthrough_witness :
    (400 ≤ 404 ∧ 404 < 600) ∧
    api_get_posts (.resp ⟨404, "post not found"⟩) = ⟨404, "post not found"⟩ :=
  ⟨⟨by decide, by decide⟩,
    (httpError_passthrough_status_and_body ⟨404, "post not found"⟩
      ⟨none, none, none⟩ ⟨none, none⟩ (by decide) (by decide)).1⟩

/-- C3: a `body` field that is absent or whitespace-only makes the
post-creation handler answer 400 regardless of the other fields, and no
outbound call is performed. -/
theorem blank_body_rejected_400_no_call (inb : InboundPost) (u : UpstreamResult)
    (h : inb.body = none ∨ ∃ s, inb.body = some s ∧ s.data.all pyIsSpace = true) :
    (api_post_message inb u).1.status = 400 ∧ (api_post_message inb u).2 = none := by
  have hb : pyStrip (inb.body.getD "") = "" := by
    rcases h with h | ⟨s, hs, hsp⟩
    · rw [h]; rfl
    · rw [hs]
      exact pyStrip_eq_empty_of_all_space s hsp
  rw [api_post_message_eq, if_pos (by simp [hb])]
  exact ⟨rfl, rfl⟩

/-- C3, witness: whitespace-only body with both credentials present. -/
theorem blank_body_rejected_witness :
    (api_post_message ⟨some "alice", some "pw", some "   "⟩
        (.netError "boom")).1.status = 400 ∧
    (api_post_message ⟨some "alice", some "pw", some "   "⟩
        (.netError "boom")).2 = none :=
  blank_body_rejected_400_no_call ⟨some "alice", some "pw", some "   "⟩
    (.netError "boom") (Or.inr ⟨"   ", rfl, by decide⟩)

/-- C4, counterexample: the post-creation outbound call carries no
client-identity header at all — its header dict is exactly the static
User-Agent dict, with neither `X-Original-Client-IP` nor `X-Forwarded-For`;
no client-address resolution exists in this program. -/
theorem post_request_has_no_client_ip_header :
    ((post_new_message_request.headers.map Prod.fst).contains
      "X-Original-Client-IP") = false ∧
    ((post_new_message_request.headers.map Prod.fst).contains
      "X-Forwarded-For") = false ∧
    post_new_message_request.headers = get_user_agent := by
  refine ⟨?_, ?_, rfl⟩ <;> rfl

/-- C4, amended: no effective-client-address resolution is performed and no
identity header is attached: the post-creation outbound call carries only
the static User-Agent header. -/
theorem post_request_only_user_agent_header :
    post_new_message_request.headers = get_user_agent ∧
    get_user_agent.map Prod.fst = ["User-Agent"] :=
  ⟨rfl, rfl⟩

/-- C5, counterexample: for the exception message `a"b` the generic-failure
body is NOT a well-formed JSON object — the message is spliced into the
f-string unescaped, so the quote terminates the string literal early. -/
theorem unsafe_message_detail_not_json :
    api_get_posts (.netError "a\"b") = ⟨500, detailBody "a\"b"⟩ ∧
    parseJson (detailBody "a\"b") = none ∧
    detailOf (detailBody "a\"b") = none :=
  ⟨rfl, rfl, rfl⟩

/-- C5, amended: for every exception message containing no double quote,
backslash, or control character (below 0x20), the generic-failure body is a
well-formed JSON object whose `detail` field equals the message; for some
messages outside that set (e.g. one containing a double quote, see the
counterexample) the body is not well-formed JSON. -/
theorem safe_message_detail_wellformed (msg : String) (h : jsonSafeMsg msg = true) :
    (api_get_posts (.netError msg)).body = detailBody msg ∧
    detailOf (detailBody msg) = some msg :=
  ⟨rfl, detailOf_detailBody msg h⟩

/-- C5, witness: the amended statement at the message "upstream timeout". -/
theorem safe_message_detail_wellformed_witness :
    jsonSafeMsg "upstream timeout" = true ∧
    detailOf (detailBody "upstream timeout") = some "upstream timeout" :=
  ⟨by decide, (safe_message_detail_wellformed "upstream timeout" (by decide)).2⟩

/-- Outside 4xx/5xx with a JSON body, the handlers answer 200 with the
re-serialized parse (the FastAPI success path). -/
theorem respond_syncCall_2xx (r : HttpResponse) (j : Json)
    (h2 : 200 ≤ r.status) (h3 : r.status < 300)
    (hp : parseJson r.body = some j) :
    respond (syncCall (.resp r)) = ⟨200, renderJson j⟩ := by
  rw [syncCall_ok r j (by omega) hp]
  rfl

/-- C6, counterexample: an upstream 201 with body `\x7b"a": 1\x7d` is
answered with status 200 (not 201) and the re-serialized body
`\x7b"a":1\x7d` (not byte-identical). -/
theorem success_201_reserialized_as_200 :
    api_get_posts (.resp ⟨201, "\x7b\"a\": 1\x7d"⟩) = ⟨200, "\x7b\"a\":1\x7d"⟩ ∧
    (api_get_posts (.resp ⟨201, "\x7b\"a\": 1\x7d"⟩)).status ≠ 201 ∧
    (api_get_posts (.resp ⟨201, "\x7b\"a\": 1\x7d"⟩)).body ≠ "\x7b\"a\": 1\x7d" :=
  ⟨rfl, by decide, by decide⟩

/-- C6, amended: for every 2xx upstream response whose body parses as JSON,
the proxy replies with status 200 (not the original success status) and
with the serialization of the parsed upstream body — the same JSON value,
but re-serialized rather than byte-identical. -/
theorem success_2xx_reserialized_200 (r : HttpResponse) (j : Json)
    (inbA : InboundAuth)
    (h2 : 200 ≤ r.status) (h3 : r.status < 300)
    (hp : parseJson r.body = some j) :
    api_get_posts (.resp r) = ⟨200, renderJson j⟩ ∧
    (api_login inbA (.resp r)).1 = ⟨200, renderJson j⟩ ∧
    (api_register inbA (.resp r)).1 = ⟨200, renderJson j⟩ :=
  ⟨respond_syncCall_2xx r j h2 h3 hp,
    respond_syncCall_2xx r j h2 h3 hp,
    respond_syncCall_2xx r j h2 h3 hp⟩

/-- C6, witness: the amended statement at an upstream 200 with body `[]`. -/
theorem success_2xx_reserialized_witness :
    (200 ≤ 200 ∧ 200 < 300 ∧ parseJson "[]" = some (.arr [])) ∧
    api_get_posts (.resp ⟨200, "[]"⟩) = ⟨200, renderJson (.arr [])⟩ :=
  ⟨⟨by decide, by decide, rfl⟩,
    (success_2xx_reserialized_200 ⟨200, "[]"⟩ (.arr []) ⟨none, none⟩
      (by decide) (by decide) rfl).1⟩

/-- C7: whenever the post-creation handler forwards a payload upstream, the
forwarded body is the trimmed inbound body and is non-empty. -/
theorem forwarded_body_is_trimmed_nonempty (inb : InboundPost) (u : UpstreamResult)
    (p : PostPayload) (h : (api_post_message inb u).2 = some p) :
    p.body = pyStrip (inb.body.getD "") ∧ p.body ≠ "" := by
  rw [api_post_message_eq] at h
  cases hC : (!truthy inb.username || !truthy inb.password ||
      decide (pyStrip (inb.body.getD "") = "")) with
  | true => rw [if_pos (by simp [hC])] at h; simp at h
  | false =>
    rw [if_neg (by simp [hC])] at h
    simp only [Option.some.injEq] at h
    subst h
    simp only [Bool.or_eq_false_iff, decide_eq_false_iff_not] at hC
    exact ⟨rfl, hC.2⟩

/-- C7, witness: inbound body " hi " is forwarded as the non-empty "hi". -/
theorem forwarded_body_is_trimmed_witness :
    (api_post_message ⟨some "u", some "p", some " hi "⟩ (.netError "x")).2 =
      some ⟨"u", "p", "hi"⟩ ∧
    (PostPayload.body ⟨"u", "p", "hi"⟩ =
        pyStrip ((InboundPost.body ⟨some "u", some "p", some " hi "⟩).getD "") ∧
      PostPayload.body ⟨"u", "p", "hi"⟩ ≠ "") :=
  ⟨rfl, forwarded_body_is_trimmed_nonempty ⟨some "u", some "p", some " hi "⟩
    (.netError "x") ⟨"u", "p", "hi"⟩ rfl⟩

/-- C8: a missing or empty `username` or `password` makes the post-creation
handler answer 400, and no outbound call is performed. -/
theorem missing_credentials_rejected_400 (inb : InboundPost) (u : UpstreamResult)
    (h : (inb.username = none ∨ inb.username = some "") ∨
         (inb.password = none ∨ inb.password = some "")) :
    (api_post_message inb u).1.status = 400 ∧ (api_post_message inb u).2 = none := by
  have ht : truthy inb.username = false ∨ truthy inb.password = false := by
    rcases h with h | h <;> [left; right] <;> rcases h with h | h <;> rw [h] <;> rfl
  rw [api_post_message_eq, if_pos (by rcases ht with ht | ht <;> simp [ht])]
  exact ⟨rfl, rfl⟩

/-- C8, witness: absent username with non-empty password and body. -/
theorem missing_credentials_rejected_witness :
    (api_post_message ⟨none, some "pw", some "hello"⟩ (.netError "x")).1.status = 400 ∧
    (api_post_message ⟨none, some "pw", some "hello"⟩ (.netError "x")).2 = none :=
  missing_credentials_rejected_400 ⟨none, some "pw", some "hello"⟩ (.netError "x")
    (Or.inl (Or.inl rfl))

/-- C9: all four outbound operations target the fixed base URL, attach the
same static User-Agent header dict, and use the single fixed timeout pair
`MAX_API_WAIT_TIME = (3, 8)` — no other timeout occurs in the program. -/
theorem outbound_requests_fixed_config :
    (fetch_bbs_posts_request.url = BBS_EXTERNAL_API_BASE_URL ++ "/posts" ∧
      fetch_bbs_posts_request.headers = get_user_agent ∧
      fetch_bbs_posts_request.timeout = MAX_API_WAIT_TIME) ∧
    (post_new_message_request.url = BBS_EXTERNAL_API_BASE_URL ++ "/post" ∧
      post_new_message_request.headers = get_user_agent ∧
      post_new_message_request.timeout = MAX_API_WAIT_TIME) ∧
    (login_user_request.url = BBS_EXTERNAL_API_BASE_URL ++ "/login" ∧
      login_user_request.headers = get_user_agent ∧
      login_user_request.timeout = MAX_API_WAIT_TIME) ∧
    (register_user_request.url = BBS_EXTERNAL_API_BASE_URL ++ "/register" ∧
      register_user_request.headers = get_user_agent ∧
      register_user_request.timeout = MAX_API_WAIT_TIME) ∧
    MAX_API_WAIT_TIME = ((3 : ℚ), (8 : ℚ)) :=
  ⟨⟨rfl, rfl, rfl⟩, ⟨rfl, rfl, rfl⟩, ⟨rfl, rfl, rfl⟩, ⟨rfl, rfl, rfl⟩, rfl⟩

/-- A wire status of 400/401/409 out of the shared upstream-call tail can
only be an upstream passthrough, never locally generated: the local
statuses of that tail are 200 and 500. -/
theorem respond_status_4xx_passthrough (u : UpstreamResult)
    (h : (respond (syncCall u)).status = 400 ∨ (respond (syncCall u)).status = 401 ∨
      (respond (syncCall u)).status = 409) :
    ∃ r, u = .resp r ∧ respond (syncCall u) = ⟨r.status, r.body⟩ := by
  cases u with
  | netError msg => rw [syncCall_netError] at h ⊢; simp [respond] at h
  | resp r =>
    refine ⟨r, rfl, ?_⟩
    by_cases hs : 400 ≤ r.status ∧ r.status < 600
    · rw [syncCall_httpError r hs.1 hs.2]; rfl
    · simp only [syncCall, if_neg hs]
      cases hp : parseJson r.body with
      | some j =>
        simp only [syncCall, if_neg hs, hp] at h
        simp [respond] at h
      | none =>
        simp only [syncCall, if_neg hs, hp] at h
        simp [respond] at h

/-- C10: the login and register handlers validate nothing locally: every
inbound JSON object is forwarded with `username` and `password` exactly as
extracted (absent fields as `none`, i.e. JSON null), and any 400/401/409
wire status is an exact upstream passthrough, never locally generated. -/
theorem auth_routes_no_local_validation (inb : InboundAuth) (u : UpstreamResult) :
    (api_login inb u).2 = ⟨inb.username, inb.password⟩ ∧
    (api_register inb u).2 = ⟨inb.username, inb.password⟩ ∧
    (((api_login inb u).1.status = 400 ∨ (api_login inb u).1.status = 401 ∨
        (api_login inb u).1.status = 409) →
      ∃ r, u = .resp r ∧ (api_login inb u).1 = ⟨r.status, r.body⟩) ∧
    (((api_register inb u).1.status = 400 ∨ (api_register inb u).1.status = 401 ∨
        (api_register inb u).1.status = 409) →
      ∃ r, u = .resp r ∧ (api_register inb u).1 = ⟨r.status, r.body⟩) :=
  ⟨rfl, rfl,
    fun h => respond_status_4xx_passthrough u h,
    fun h => respond_status_4xx_passthrough u h⟩

/-- C10, witness: credentials forwarded verbatim, and an upstream 401
passed through. -/
theorem auth_routes_no_local_validation_witness :
    (api_login ⟨some "A", some "B"⟩ (.resp ⟨401, "no"⟩)).2 = ⟨some "A", some "B"⟩ ∧
    (∃ r, (UpstreamResult.resp ⟨401, "no"⟩) = .resp r ∧
      (api_login ⟨some "A", some "B"⟩ (.resp ⟨401, "no"⟩)).1 = ⟨r.status, r.body⟩) :=
  ⟨(auth_routes_no_local_validation ⟨some "A", some "B"⟩ (.resp ⟨401, "no"⟩)).1,
    (auth_routes_no_local_validation ⟨some "A", some "B"⟩ (.resp ⟨401, "no"⟩)).2.2.1
      (Or.inr (Or.inl rfl))⟩
